import Mathlib

/-!
Verification development for the mesh-quality analysis pipeline of the
ccxdebug repository (src/ccxdebug/quality_analyzer.py).

The Python source is shallowly embedded: strings are Lean strings
(operations are defined on their character lists, mirroring the Python
string methods used by the source), machine floats are idealized as exact
rationals for the arithmetic-only computations and as real numbers where
square roots (vector norms) appear, the not-a-number sentinel is `none`
of an `Option`, and the positive-infinity sentinel of the warping
computation is likewise `none`.  Fallible code returns `Except`.
-/

/-! ## Python string primitives (character-list level) -/

/-- Whitespace characters removed by the Python `str.strip` method. -/
def isPySpace (c : Char) : Bool :=
  c == ' ' || c == '\t' || c == '\n' || c == '\r' || c == '\x0b' || c == '\x0c'

/-- Python `s.strip()`. -/
def pyStrip (s : String) : String :=
  ⟨((s.data.dropWhile isPySpace).reverse.dropWhile isPySpace).reverse⟩

/-- Python `s.upper()` (ASCII, which covers the keyword format). -/
def pyUpper (s : String) : String :=
  ⟨s.data.map Char.toUpper⟩

/-- Python `s.startswith(pre)`. -/
def pyStartswith (s pre : String) : Bool :=
  pre.data.isPrefixOf s.data

/-- Python substring containment `sub in s`, on character lists. -/
def pyContainsL (sub : List Char) : List Char → Bool
  | [] => sub.isEmpty
  | c :: rest => sub.isPrefixOf (c :: rest) || pyContainsL sub rest

/-- Python `sub in s`. -/
def pyContainsStr (s sub : String) : Bool :=
  pyContainsL sub.data s.data

/-- Python `s.split(sep)` for a nonempty separator, fuelled so that the
recursion is structural (the fuel is the length of the string, which the
scan never exhausts). -/
def pySplitF (sep : List Char) : Nat → List Char → List (List Char)
  | _, [] => [[]]
  | 0, c :: rest => [c :: rest]
  | fuel + 1, c :: rest =>
    if sep.isPrefixOf (c :: rest) = true ∧ sep ≠ [] then
      [] :: pySplitF sep fuel (List.drop sep.length (c :: rest))
    else
      match pySplitF sep fuel rest with
      | [] => [[c]]
      | p :: ps => (c :: p) :: ps

/-- Python `s.split(sep)`. -/
def pySplit (sep s : String) : List String :=
  (pySplitF sep.data s.data.length s.data).map (fun l => ⟨l⟩)

/-- Python `s.isdigit()` (ASCII digits). -/
def pyIsDigitL (s : List Char) : Bool :=
  !s.isEmpty && s.all Char.isDigit

/-- Numeric value of a digit string. -/
def digitsVal (s : List Char) : Nat :=
  s.foldl (fun a c => 10 * a + (c.toNat - 48)) 0

/-- Python `int(s)` for an already-stripped string: optional sign followed
by at least one digit. -/
def pyParseIntL (s : List Char) : Option Int :=
  match s with
  | '-' :: rest => if pyIsDigitL rest then some (-(digitsVal rest : Int)) else none
  | '+' :: rest => if pyIsDigitL rest then some (digitsVal rest : Int) else none
  | _ => if pyIsDigitL s then some (digitsVal s : Int) else none

/-- Python `int(s)`. -/
def pyParseInt (s : String) : Option Int :=
  pyParseIntL s.data

/-- Unsigned decimal mantissa: digits with at most one dot, at least one
digit overall. -/
def parseUnsignedDec (s : List Char) : Option ℚ :=
  match pySplitF ['.'] s.length s with
  | [ip] => if pyIsDigitL ip then some (digitsVal ip : ℚ) else none
  | [ip, fp] =>
    if (ip.isEmpty || pyIsDigitL ip) && (fp.isEmpty || pyIsDigitL fp)
        && !(ip.isEmpty && fp.isEmpty) then
      some ((digitsVal ip : ℚ) + (digitsVal fp : ℚ) / (10 : ℚ) ^ fp.length)
    else none
  | _ => none

/-- Mantissa with optional exponent part (the string is lowercased before
this runs, so only the letter e needs handling). -/
def parseFloatCore (s : List Char) : Option ℚ :=
  match pySplitF ['e'] s.length s with
  | [m] => parseUnsignedDec m
  | [m, ex] =>
    match parseUnsignedDec m, pyParseIntL ex with
    | some mv, some ev => some (mv * (10 : ℚ) ^ (ev : ℤ))
    | _, _ => none
  | _ => none

/-- Modelled from the spec: the Python built-in `float` conversion used by
the parser (external to the repository sources), restricted to finite
decimal literals and idealized as exact rational values. -/
def pyParseFloat (s : String) : Option ℚ :=
  match s.data.map Char.toLower with
  | '-' :: rest => (parseFloatCore rest).map (fun q => -q)
  | '+' :: rest => parseFloatCore rest
  | l => parseFloatCore l

/-! ## String constants of the source -/

def commentMark : String := "**"
def starMark : String := "*"
def kwNODE : String := "*NODE"
def kwELEMENT : String := "*ELEMENT"
def kwTYPEEQ : String := "TYPE="
def fieldSep : String := ","
def emptyStr : String := ""
def kwC3D8 : String := "C3D8"
def kwS8R : String := "S8R"
def fmtErrMsg : String := "Invalid *ELEMENT format: TYPE= specifier malformed"
def dataErrMsg1 : String := "No valid nodes or elements found in .inp file"
def dataErrMsg2 : String := "No valid elements converted to VTK types"

/-! ## Data model -/

/-- A 3-component coordinate (machine floats idealized as rationals). -/
abbrev Vec3 := ℚ × ℚ × ℚ

/-- Error taxonomy of the run: `formatError` is the malformed-TYPE=
raise of the parser, `dataError` the two emptiness aborts. -/
inductive RunError where
  | formatError (msg : String)
  | dataError (msg : String)
deriving DecidableEq

/-- The mutable locals of `analyze_mesh_quality` during the line loop
(lines 59 to 65 of quality_analyzer.py). -/
structure ParseState where
  nodes : List Vec3
  node_ids : List (Int × Nat)
  elements : List (Int × List Nat)
  element_types : List String
  in_node : Bool
  in_element : Bool
  current_element_type : Option String
deriving DecidableEq

def initState : ParseState := ⟨[], [], [], [], false, false, none⟩

/-- Python truthiness of `current_element_type` (line 109): not `None`
and not the empty string. -/
def ctypeTruthy : Option String → Bool
  | none => false
  | some t => !t.isEmpty

/-- The stored element type string (guarded by `ctypeTruthy`). -/
def ctypeVal : Option String → String
  | none => emptyStr
  | some t => t

/-- Dictionary lookup `node_ids[n]`; insertions are prepended, so the
first match is the most recent assignment, matching dict overwrite. -/
def lookupNode (m : List (Int × Nat)) (k : Int) : Option Nat :=
  match m with
  | [] => none
  | (k2, v) :: rest => if k2 = k then some v else lookupNode rest k

/-- Node data line handling (lines 98 to 107). -/
def nodeData (st : ParseState) (line : String) : ParseState :=
  let parts := pySplit fieldSep line
  if 4 ≤ parts.length then
    match pyParseInt (pyStrip (parts.getD 0 emptyStr)),
        pyParseFloat (pyStrip (parts.getD 1 emptyStr)),
        pyParseFloat (pyStrip (parts.getD 2 emptyStr)),
        pyParseFloat (pyStrip (parts.getD 3 emptyStr)) with
    | some nid, some x, some y, some z =>
      { st with nodes := st.nodes ++ [(x, y, z)],
                node_ids := (nid, st.nodes.length) :: st.node_ids }
    | _, _, _, _ => st
  else st

/-- Element data line handling (lines 109 to 119): the id must parse, the
node tokens are the nonempty all-digit fields, every node id must resolve,
and an empty node list appends nothing; any failure skips the line. -/
def elemData (st : ParseState) (line : String) : ParseState :=
  let parts := pySplit fieldSep line
  match pyParseInt (pyStrip (parts.getD 0 emptyStr)) with
  | none => st
  | some eid =>
    let toks := (parts.drop 1).map pyStrip
    let elem_nodes : List Int :=
      (toks.filter (fun t => !t.isEmpty && pyIsDigitL t.data)).map
        (fun t => (digitsVal t.data : Int))
    if elem_nodes.isEmpty then st
    else
      match elem_nodes.mapM (lookupNode st.node_ids) with
      | none => st
      | some idxs =>
        { st with elements := st.elements ++ [(eid, idxs)],
                  element_types := st.element_types ++ [ctypeVal st.current_element_type] }

/-- Element keyword line handling (lines 80 to 90): extract the TYPE=
value from the uppercased line; the raise is guarded by the split having
fewer than two parts (the Python IndexError branch). -/
def elementHeader (st : ParseState) (lineU : String) : Except RunError ParseState :=
  let st1 := { st with in_node := false, in_element := true }
  if pyContainsStr lineU kwTYPEEQ then
    let parts := pySplit kwTYPEEQ lineU
    if 2 ≤ parts.length then
      let tval := pyStrip ((pySplit fieldSep (parts.getD 1 emptyStr)).getD 0 emptyStr)
      .ok { st1 with current_element_type := some tval }
    else .error (.formatError fmtErrMsg)
  else .ok { st1 with current_element_type := some kwC3D8 }

/-- One iteration of the line loop (lines 70 to 119). -/
def processLine (st : ParseState) (raw : String) : Except RunError ParseState :=
  let line := pyStrip raw
  if line.data.isEmpty || pyStartswith line commentMark then .ok st
  else if pyStartswith (pyUpper line) kwNODE then
    .ok { st with in_node := true, in_element := false }
  else if pyStartswith (pyUpper line) kwELEMENT then
    elementHeader st (pyUpper line)
  else if pyStartswith (pyUpper line) starMark then
    .ok { st with in_node := false, in_element := false, current_element_type := none }
  else
    let st1 := if st.in_node then nodeData st line else st
    let st2 := if st1.in_element && ctypeTruthy st1.current_element_type then
        elemData st1 line else st1
    .ok st2

/-- The full line loop over the file content. -/
def parse_state (lines : List String) : Except RunError ParseState :=
  lines.foldlM processLine initState

/-- The line loop followed by the emptiness check of lines 121 to 122. -/
def parse_mesh (lines : List String) : Except RunError ParseState :=
  match parse_state lines with
  | .error e => .error e
  | .ok st =>
    if st.nodes = [] ∨ st.elements = [] then .error (.dataError dataErrMsg1)
    else .ok st

/-- Total accessor for the parse result, used to state theorems without an
`Except` wrapper; `parse_state` is proved below to never return an error,
so the default branch is never taken. -/
def parsedMesh (lines : List String) : ParseState :=
  match parse_state lines with
  | .ok st => st
  | .error _ => initState

/-! ## Geometric metrics (lines 5 to 55 of quality_analyzer.py) -/

/-- Componentwise vector difference. -/
def sub3 (a b : Vec3) : Vec3 :=
  (a.1 - b.1, a.2.1 - b.2.1, a.2.2 - b.2.2)

/-- The numpy cross product of two 3-vectors. -/
def cross3 (a b : Vec3) : Vec3 :=
  (a.2.1 * b.2.2 - a.2.2 * b.2.1,
   a.2.2 * b.1 - a.1 * b.2.2,
   a.1 * b.2.1 - a.2.1 * b.1)

/-- The numpy dot product of two 3-vectors. -/
def dot3 (a b : Vec3) : ℚ :=
  a.1 * b.1 + a.2.1 * b.2.1 + a.2.2 * b.2.2

/-- Squared Euclidean norm (rational). -/
def normSq (v : Vec3) : ℚ := dot3 v v

/-- `np.linalg.norm`: the Euclidean norm, a real number. -/
noncomputable def norm3 (v : Vec3) : ℝ :=
  Real.sqrt ((normSq v : ℚ) : ℝ)

/-- Real dot product, for the distance computation of the warping metric. -/
noncomputable def dot3R (a b : ℝ × ℝ × ℝ) : ℝ :=
  a.1 * b.1 + a.2.1 * b.2.1 + a.2.2 * b.2.2

/-- Coordinates cast to the reals. -/
noncomputable def toR3 (v : Vec3) : ℝ × ℝ × ℝ :=
  ((v.1 : ℝ), (v.2.1 : ℝ), (v.2.2 : ℝ))

/-- `np.max` of a nonempty array (the empty default is never used by the
source, which calls this only on arrays of at least 4 distances). -/
noncomputable def listMaxD (l : List ℝ) : ℝ :=
  match l with
  | [] => 0
  | x :: xs => xs.foldl max x

open scoped Classical in
/-- `compute_warping` (lines 5 to 17): `none` is the positive-infinity
sentinel returned for a degenerate plane fit; fewer than 4 points return
zero; otherwise the maximum absolute distance of the points from the
plane through the first point with unit normal along the cross product of
the first two edge vectors. -/
noncomputable def compute_warping (points : List Vec3) : Option ℝ :=
  if points.length < 4 then some 0
  else
    match points with
    | p0 :: p1 :: p2 :: _ =>
      let v1 := sub3 p1 p0
      let v2 := sub3 p2 p0
      let normal := cross3 v1 v2
      if norm3 normal = 0 then none
      else
        let n1 := ((normal.1 : ℝ) / norm3 normal, (normal.2.1 : ℝ) / norm3 normal,
          (normal.2.2 : ℝ) / norm3 normal)
        let ds := points.map (fun p => |dot3R (toR3 (sub3 p p0)) n1|)
        some (listMaxD ds)
    | _ => some 0

/-- Triangle area as half the magnitude of the cross product of the two
edge vectors from the first vertex (lines 23 to 26). -/
noncomputable def triangle_area (p1 p2 p3 : Vec3) : ℝ :=
  1 / 2 * norm3 (cross3 (sub3 p2 p1) (sub3 p3 p1))

open scoped Classical in
/-- `is_butterfly` (lines 19 to 30): false unless exactly 4 points; the
two diagonal triangles areas are summed and compared by
`np.isclose(total, 0, atol=1e-10)`, whose condition is
abs of the difference at most atol plus rtol (default 1e-5) times the
absolute second argument. -/
noncomputable def is_butterfly (points : List Vec3) : Bool :=
  match points with
  | [q0, q1, q2, q3] =>
    let total := triangle_area q0 q1 q2 + triangle_area q2 q3 q0
    decide (total < 0 ∨ |total - 0| ≤ 1e-10 + 1e-5 * |(0 : ℝ)|)
  | _ => false

/-- `np.mean(points, axis=0)`: the centroid of the point list. -/
def centroid (pts : List Vec3) : Vec3 :=
  ((pts.map (fun p => p.1)).sum / (pts.length : ℚ),
   (pts.map (fun p => p.2.1)).sum / (pts.length : ℚ),
   (pts.map (fun p => p.2.2)).sum / (pts.length : ℚ))

/-- Signed scalar triple product of the edge vectors of one corner
tetrahedron: vertices are the three indexed points and the centroid
(lines 46 to 53). -/
def tetDet (pts : List Vec3) (c : Vec3) (i0 i1 i2 : Nat) : ℚ :=
  let p0 := pts.getD i0 (0, 0, 0)
  let p1 := pts.getD i1 (0, 0, 0)
  let p2 := pts.getD i2 (0, 0, 0)
  dot3 (sub3 p1 p0) (cross3 (sub3 p2 p0) (sub3 c p0))

/-- The Python `min` of two values (the first argument on ties). -/
def pyMin (a b : ℚ) : ℚ := if a ≤ b then a else b

/-- `compute_3d_jacobian` (lines 32 to 55): `none` is the NaN sentinel for
a point count other than 8; otherwise the loop starting from positive
infinity over the four fixed corner tetrahedra, which unrolls to the
nested minimum of the four triple products. -/
def compute_3d_jacobian (pts : List Vec3) : Option ℚ :=
  if pts.length = 8 then
    let c := centroid pts
    some (pyMin (pyMin (pyMin (tetDet pts c 0 1 3) (tetDet pts c 1 2 3))
      (tetDet pts c 4 5 7)) (tetDet pts c 5 6 7))
  else none

/-! ## Shape filter (lines 124 to 146) -/

/-- Accumulators of the element conversion loop. -/
structure FilterResult where
  vtk_cell_types : List Nat
  cells : List Nat
  valid_elements : List (Int × List Nat)
  valid_element_types : List String
deriving DecidableEq

/-- VTK cell type constant `pv.CellType.HEXAHEDRON`. -/
def VTK_HEXAHEDRON : Nat := 12

/-- VTK cell type constant `pv.CellType.QUAD`. -/
def VTK_QUAD : Nat := 9

/-- One iteration of the conversion loop (lines 129 to 143). -/
def filterStep (fr : FilterResult) (p : String × (Int × List Nat)) : FilterResult :=
  if pyUpper p.1 = kwC3D8 ∧ p.2.2.length = 8 then
    ⟨fr.vtk_cell_types ++ [VTK_HEXAHEDRON], fr.cells ++ (8 :: p.2.2),
     fr.valid_elements ++ [p.2], fr.valid_element_types ++ [p.1]⟩
  else if pyUpper p.1 = kwS8R ∧ 4 ≤ p.2.2.length then
    ⟨fr.vtk_cell_types ++ [VTK_QUAD], fr.cells ++ (4 :: p.2.2.take 4),
     fr.valid_elements ++ [p.2], fr.valid_element_types ++ [p.1]⟩
  else fr

/-- The conversion loop over `zip(element_types, elements)`. -/
def filter_elements (etypes : List String) (elements : List (Int × List Nat)) : FilterResult :=
  (etypes.zip elements).foldl filterStep ⟨[], [], [], []⟩

/-- The parse stage, the filter stage, and the two fatal emptiness checks
of the run (lines 121 to 122 and 145 to 146); later stages cannot fail. -/
def run_checks (lines : List String) : Except RunError (ParseState × FilterResult) :=
  match parse_mesh lines with
  | .error e => .error e
  | .ok st =>
    let fr := filter_elements st.element_types st.elements
    if fr.cells = [] then .error (.dataError dataErrMsg2)
    else .ok (st, fr)

/-! ## Custom metric lists (lines 160 to 171) -/

/-- The point list handed to the warping and butterfly computations for
one element (line 165): the first 4 resolved nodes for a shell, all
resolved nodes otherwise. -/
def cell_points (points : List Vec3) (t : String) (ns : List Nat) : List Vec3 :=
  (if t = kwS8R then ns.take 4 else ns).map (fun i => points.getD i (0, 0, 0))

/-- The warping column (lines 164 to 167). -/
noncomputable def warping_list (points : List Vec3) (valid : List (Int × List Nat))
    (vtypes : List String) : List (Option ℝ) :=
  (vtypes.zip valid).map (fun q => compute_warping (cell_points points q.1 q.2.2))

/-- The butterfly column (line 168): computed only for shells. -/
noncomputable def butterflies_list (points : List Vec3) (valid : List (Int × List Nat))
    (vtypes : List String) : List Bool :=
  (vtypes.zip valid).map (fun q =>
    if q.1 = kwS8R then is_butterfly (cell_points points q.1 q.2.2) else false)

/-- The 3D-Jacobian column (line 170): computed for every element with
exactly 8 resolved nodes, NaN (`none`) otherwise. -/
def jacobian_3d_list (points : List Vec3) (valid : List (Int × List Nat)) : List (Option ℚ) :=
  valid.map (fun e =>
    if e.2.length = 8 then
      compute_3d_jacobian (e.2.map (fun i => points.getD i (0, 0, 0)))
    else none)

/-! ## Problem detector (lines 173 to 186) -/

/-- Violation messages; each constructor carries the offending value that
the source interpolates into the message text. -/
inductive Issue where
  | highAspectRatio (v : ℚ)
  | nearZeroAreaVolume (v : ℚ)
  | nonpositiveJacobian (v : ℚ)
  | nonpositive3DJacobian (v : ℚ)
deriving DecidableEq

/-- One flagged element: id, type, and its accumulated issues. -/
structure ProblemEntry where
  elem_id : Int
  etype : String
  issues : List Issue
deriving DecidableEq

/-- The issue accumulation for one record (lines 176 to 184), in the fixed
rule order of the source; the fourth rule is gated on the S8R type, a
non-NaN 3D Jacobian, and nonpositivity. -/
def element_issues (ar av j : ℚ) (t : String) (j3d : Option ℚ) : List Issue :=
  (if 20 < ar then [Issue.highAspectRatio ar] else []) ++
  (if av < 1e-6 then [Issue.nearZeroAreaVolume av] else []) ++
  (if j ≤ 0 then [Issue.nonpositiveJacobian j] else []) ++
  (if t = kwS8R then
    match j3d with
    | some v => if v ≤ 0 then [Issue.nonpositive3DJacobian v] else []
    | none => []
  else [])

/-- The issues of the record at index `i` of the parallel metric arrays. -/
def issuesAt (vtypes : List String) (ar av j : List ℚ) (j3d : List (Option ℚ))
    (i : Nat) : List Issue :=
  element_issues (ar.getD i 0) (av.getD i 0) (j.getD i 0) (vtypes.getD i emptyStr)
    (j3d.getD i none)

/-- The problem entry built for index `i` (line 186). -/
def entryAt (valid : List (Int × List Nat)) (vtypes : List String) (ar av j : List ℚ)
    (j3d : List (Option ℚ)) (i : Nat) : ProblemEntry :=
  ⟨(valid.getD i (0, [])).1, vtypes.getD i emptyStr, issuesAt vtypes ar av j j3d i⟩

/-- The detector loop (lines 174 to 186): the oracle metric arrays (aspect
ratio, area-or-volume, scaled Jacobian) are opaque inputs. -/
def detect_problems (valid : List (Int × List Nat)) (vtypes : List String)
    (ar av j : List ℚ) (j3d : List (Option ℚ)) : List ProblemEntry :=
  (List.range valid.length).foldl (fun acc i =>
    if issuesAt vtypes ar av j j3d i = [] then acc
    else acc ++ [entryAt valid vtypes ar av j j3d i]) []

/-! ## Report rows (lines 202 to 217) -/

/-- One CSV data row, fields in header order. -/
structure CsvRow where
  elem_id : Int
  etype : String
  aspect_ratio : ℚ
  skew : ℚ
  jacobian : ℚ
  jacobian_3d : Option ℚ
  warping : Option ℝ
  area_volume : ℚ
  butterfly : Bool

/-- The CSV data rows, one per included element in inclusion order. -/
noncomputable def csv_rows (points : List Vec3) (fr : FilterResult)
    (ar skew j av : List ℚ) : List CsvRow :=
  (List.range fr.valid_elements.length).map (fun i =>
    ⟨(fr.valid_elements.getD i (0, [])).1,
     fr.valid_element_types.getD i emptyStr,
     ar.getD i 0, skew.getD i 0, j.getD i 0,
     (jacobian_3d_list points fr.valid_elements).getD i none,
     (warping_list points fr.valid_elements fr.valid_element_types).getD i none,
     av.getD i 0,
     (butterflies_list points fr.valid_elements fr.valid_element_types).getD i false⟩)

/-- Modelled from the spec (section 4.3 step 1 and section 8): the shape
filter predicate stated in the spec words — HEX8 requires exactly 8
resolved node indices, QUAD_SHELL8 at least 4. -/
def spec_filter_pred (t : String) (ns : List Nat) : Bool :=
  (pyUpper t == kwC3D8 && decide (ns.length = 8)) ||
  (pyUpper t == kwS8R && decide (4 ≤ ns.length))

/-! ## Concrete inputs -/

/-- The unit cube corners in standard hexahedron corner ordering: bottom
face counterclockwise, then the top face with the same winding. -/
def unitCube : List Vec3 :=
  [(0, 0, 0), (1, 0, 0), (1, 1, 0), (0, 1, 0),
   (0, 0, 1), (1, 0, 1), (1, 1, 1), (0, 1, 1)]

/-- A node block defining the unit cube corners as nodes 1 to 8. -/
def cubeNodeLines : List String :=
  ["*NODE",
   "1, 0.0, 0.0, 0.0",
   "2, 1.0, 0.0, 0.0",
   "3, 1.0, 1.0, 0.0",
   "4, 0.0, 1.0, 0.0",
   "5, 0.0, 0.0, 1.0",
   "6, 1.0, 0.0, 1.0",
   "7, 1.0, 1.0, 1.0",
   "8, 0.0, 1.0, 1.0"]

/-- Input declaring the cube corners as a single S8R element with 8
resolved nodes. -/
def s8rCubeLines : List String :=
  cubeNodeLines ++ ["*ELEMENT, TYPE=S8R", "1, 1, 2, 3, 4, 5, 6, 7, 8"]

/-- Input declaring the cube corners as a single C3D8 element. -/
def c3d8CubeLines : List String :=
  cubeNodeLines ++ ["*ELEMENT, TYPE=C3D8", "1, 1, 2, 3, 4, 5, 6, 7, 8"]

/-- Input whose element keyword line carries an empty TYPE= value. -/
def emptyTypeLines : List String :=
  ["*NODE", "1, 0.0, 0.0, 0.0", "*ELEMENT, TYPE=", "1, 1, 1, 1, 1"]

/-- The unit square corners. -/
def sq0 : Vec3 := (0, 0, 0)
def sq1 : Vec3 := (1, 0, 0)
def sq2 : Vec3 := (1, 1, 0)
def sq3 : Vec3 := (0, 1, 0)

/-! ## Helper lemmas -/

unseal Rat.mul Rat.add Rat.sub Rat.inv Rat.ofScientific

/-- The split always produces at least one piece. -/
lemma pySplitF_ne_nil (sep : List Char) (fuel : Nat) (s : List Char) :
    pySplitF sep fuel s ≠ [] := by
  match fuel, s with
  | _, [] => simp [pySplitF]
  | 0, c :: rest => simp [pySplitF]
  | fuel + 1, c :: rest =>
    rw [pySplitF]
    split
    · simp
    · rcases h : pySplitF sep fuel rest with _ | ⟨p, ps⟩ <;> simp

/-- If a nonempty separator occurs in the string and the fuel covers the
string, the split has at least two pieces: this is why the Python
`split(sep)[1]` after a containment check can never raise IndexError. -/
lemma pySplitF_two_le (sep : List Char) (hsep : sep ≠ []) :
    ∀ (fuel : Nat) (s : List Char), pyContainsL sep s = true → s.length ≤ fuel →
      2 ≤ (pySplitF sep fuel s).length := by
  intro fuel
  induction fuel with
  | zero =>
    intro s hc hl
    match s with
    | [] => simp [pyContainsL, List.isEmpty_iff, hsep] at hc
    | c :: rest => simp at hl
  | succ fuel ih =>
    intro s hc hl
    match s with
    | [] => simp [pyContainsL, List.isEmpty_iff, hsep] at hc
    | c :: rest =>
      rw [pySplitF]
      split
      · have := pySplitF_ne_nil sep fuel (List.drop sep.length (c :: rest))
        simp only [List.length_cons]
        have : 1 ≤ (pySplitF sep fuel (List.drop sep.length (c :: rest))).length :=
          List.length_pos.mpr this
        omega
      · rename_i hnot
        have hpre : sep.isPrefixOf (c :: rest) = false := by
          cases hpx : sep.isPrefixOf (c :: rest) with
          | false => rfl
          | true => exact absurd ⟨hpx, hsep⟩ hnot
        have hc2 : pyContainsL sep rest = true := by
          simp only [pyContainsL, hpre, Bool.false_or] at hc
          exact hc
        have hl2 : rest.length ≤ fuel := by simpa using hl
        have h2 := ih rest hc2 hl2
        rcases h : pySplitF sep fuel rest with _ | ⟨p, ps⟩
        · exact absurd h (pySplitF_ne_nil sep fuel rest)
        · rw [h] at h2
          simpa using h2

/-- Containment of TYPE= in a line forces its split to have a second part. -/
lemma pySplit_typeeq_two_le (s : String) (h : pyContainsStr s kwTYPEEQ = true) :
    2 ≤ (pySplit kwTYPEEQ s).length := by
  unfold pySplit
  rw [List.length_map]
  exact pySplitF_two_le kwTYPEEQ.data (by decide) s.data.length s.data h (le_refl _)

/-- The element keyword handler never reaches its error branch. -/
lemma elementHeader_ok (st : ParseState) (lineU : String) :
    ∃ st2, elementHeader st lineU = .ok st2 := by
  unfold elementHeader
  by_cases hc : pyContainsStr lineU kwTYPEEQ = true
  · rw [if_pos hc, if_pos (pySplit_typeeq_two_le lineU hc)]
    exact ⟨_, rfl⟩
  · rw [if_neg (by simpa using hc)]
    exact ⟨_, rfl⟩

/-- No line of any input can make the line loop fail. -/
lemma processLine_ok (st : ParseState) (raw : String) :
    ∃ st2, processLine st raw = .ok st2 := by
  rcases h : processLine st raw with e | st2
  · exfalso
    simp only [processLine] at h
    split at h
    · simp at h
    · split at h
      · simp at h
      · split at h
        · obtain ⟨st2, h2⟩ := elementHeader_ok st (pyUpper (pyStrip raw))
          rw [h2] at h
          simp at h
        · split at h <;> simp at h
  · exact ⟨st2, rfl⟩

/-- The whole line loop never fails, from any start state. -/
lemma foldlM_processLine_ok (lines : List String) :
    ∀ st : ParseState, ∃ st2, List.foldlM processLine st lines = .ok st2 := by
  induction lines with
  | nil => intro st; exact ⟨st, rfl⟩
  | cons l ls ih =>
    intro st
    obtain ⟨st1, h1⟩ := processLine_ok st l
    obtain ⟨st2, h2⟩ := ih st1
    exact ⟨st2, by rw [List.foldlM_cons, h1]; simpa using h2⟩

/-- `parse_state` always succeeds, and `parsedMesh` names its result. -/
lemma parse_state_eq (lines : List String) :
    parse_state lines = .ok (parsedMesh lines) := by
  obtain ⟨st, h⟩ := foldlM_processLine_ok lines initState
  have h2 : parse_state lines = .ok st := h
  rw [h2, parsedMesh, h2]

/-- Zipping the two projections of a pair list restores the list. -/
lemma zip_proj_eq {α β : Type} (l : List (α × β)) :
    (l.map Prod.fst).zip (l.map Prod.snd) = l := by
  induction l with
  | nil => rfl
  | cons x xs ih => simpa using ih

/-- The spec filter predicate holds exactly on the two kept branches of
the conversion loop. -/
lemma spec_filter_pred_iff (t : String) (ns : List Nat) :
    spec_filter_pred t ns = true ↔
      ((pyUpper t = kwC3D8 ∧ ns.length = 8) ∨ (pyUpper t = kwS8R ∧ 4 ≤ ns.length)) := by
  simp [spec_filter_pred]

/-- The conversion loop, from any accumulator: the kept elements, their
types, and the visual cell count are those of the filtered zip list. -/
lemma foldl_filterStep (l : List (String × (Int × List Nat))) :
    ∀ acc : FilterResult,
      (l.foldl filterStep acc).valid_elements
        = acc.valid_elements ++ (l.filter fun p => spec_filter_pred p.1 p.2.2).map Prod.snd ∧
      (l.foldl filterStep acc).valid_element_types
        = acc.valid_element_types ++ (l.filter fun p => spec_filter_pred p.1 p.2.2).map Prod.fst ∧
      (l.foldl filterStep acc).vtk_cell_types.length
        = acc.vtk_cell_types.length + (l.filter fun p => spec_filter_pred p.1 p.2.2).length := by
  induction l with
  | nil => intro acc; simp
  | cons x xs ih =>
    intro acc
    rw [List.foldl_cons, List.filter_cons]
    by_cases h1 : pyUpper x.1 = kwC3D8 ∧ x.2.2.length = 8
    · have hp : spec_filter_pred x.1 x.2.2 = true := (spec_filter_pred_iff _ _).mpr (Or.inl h1)
      rw [if_pos hp]
      have hstep : filterStep acc x =
          ⟨acc.vtk_cell_types ++ [VTK_HEXAHEDRON], acc.cells ++ (8 :: x.2.2),
           acc.valid_elements ++ [x.2], acc.valid_element_types ++ [x.1]⟩ := by
        rw [filterStep, if_pos h1]
      rw [hstep]
      obtain ⟨ha, hb, hc⟩ := ih _
      refine ⟨?_, ?_, ?_⟩
      · rw [ha]; simp
      · rw [hb]; simp
      · rw [hc]; simp; omega
    · by_cases h2 : pyUpper x.1 = kwS8R ∧ 4 ≤ x.2.2.length
      · have hp : spec_filter_pred x.1 x.2.2 = true := (spec_filter_pred_iff _ _).mpr (Or.inr h2)
        rw [if_pos hp]
        have hstep : filterStep acc x =
            ⟨acc.vtk_cell_types ++ [VTK_QUAD], acc.cells ++ (4 :: x.2.2.take 4),
             acc.valid_elements ++ [x.2], acc.valid_element_types ++ [x.1]⟩ := by
          rw [filterStep, if_neg h1, if_pos h2]
        rw [hstep]
        obtain ⟨ha, hb, hc⟩ := ih _
        refine ⟨?_, ?_, ?_⟩
        · rw [ha]; simp
        · rw [hb]; simp
        · rw [hc]; simp; omega
      · have hp : spec_filter_pred x.1 x.2.2 = false := by
          rw [Bool.eq_false_iff]
          intro hx
          rcases (spec_filter_pred_iff _ _).mp hx with h | h
          · exact h1 h
          · exact h2 h
        rw [if_neg (by simp [hp])]
        have hstep : filterStep acc x = acc := by
          rw [filterStep, if_neg h1, if_neg h2]
        rw [hstep]
        exact ih acc

/-- The conversion loop leaves the cells array empty exactly when it keeps
no element, from any accumulator already satisfying that link. -/
lemma foldl_filterStep_cells (l : List (String × (Int × List Nat))) :
    ∀ acc : FilterResult, (acc.cells = [] ↔ acc.valid_elements = []) →
      ((l.foldl filterStep acc).cells = [] ↔ (l.foldl filterStep acc).valid_elements = []) := by
  induction l with
  | nil => intro acc h; exact h
  | cons x xs ih =>
    intro acc h
    rw [List.foldl_cons]
    apply ih
    unfold filterStep
    split
    · constructor <;> intro h2 <;> simp at h2
    · split
      · constructor <;> intro h2 <;> simp at h2
      · exact h

/-- The shape filter outputs are exactly the filtered zip list. -/
lemma filter_elements_spec (etypes : List String) (elements : List (Int × List Nat)) :
    (filter_elements etypes elements).valid_elements
      = ((etypes.zip elements).filter fun p => spec_filter_pred p.1 p.2.2).map Prod.snd ∧
    (filter_elements etypes elements).valid_element_types
      = ((etypes.zip elements).filter fun p => spec_filter_pred p.1 p.2.2).map Prod.fst ∧
    (filter_elements etypes elements).vtk_cell_types.length
      = ((etypes.zip elements).filter fun p => spec_filter_pred p.1 p.2.2).length := by
  have h := foldl_filterStep (etypes.zip elements) ⟨[], [], [], []⟩
  simpa [filter_elements] using h

/-- The cells array of the filter result is empty exactly when no element
was kept. -/
lemma filter_elements_cells_iff (etypes : List String) (elements : List (Int × List Nat)) :
    ((filter_elements etypes elements).cells = []
      ↔ (filter_elements etypes elements).valid_elements = []) :=
  foldl_filterStep_cells _ _ (by simp)

/-- A guarded append fold is a filterMap. -/
lemma foldl_guard_filterMap {ι β : Type} (P : ι → Prop) [DecidablePred P] (e : ι → β)
    (l : List ι) : ∀ acc : List β,
      l.foldl (fun a i => if P i then a else a ++ [e i]) acc
        = acc ++ l.filterMap (fun i => if P i then none else some (e i)) := by
  induction l with
  | nil => intro acc; simp
  | cons x xs ih =>
    intro acc
    rw [List.foldl_cons, List.filterMap_cons]
    by_cases h : P x
    · rw [if_pos h, if_pos h, ih]
    · rw [if_neg h, if_neg h, ih]
      simp

/-- The detector loop written as a filterMap over the record indices. -/
lemma detect_problems_eq (valid : List (Int × List Nat)) (vtypes : List String)
    (ar av j : List ℚ) (j3d : List (Option ℚ)) :
    detect_problems valid vtypes ar av j j3d
      = (List.range valid.length).filterMap (fun i =>
          if issuesAt vtypes ar av j j3d i = [] then none
          else some (entryAt valid vtypes ar av j j3d i)) := by
  unfold detect_problems
  simpa using foldl_guard_filterMap (fun i => issuesAt vtypes ar av j j3d i = [])
    (entryAt valid vtypes ar av j j3d) (List.range valid.length) []

/-- The accumulated issue list is empty exactly when none of the four
threshold rules holds. -/
lemma element_issues_eq_nil_iff (a b c : ℚ) (t : String) (o : Option ℚ) :
    element_issues a b c t o = [] ↔
      ¬(20 < a ∨ b < 1e-6 ∨ c ≤ 0 ∨ (t = kwS8R ∧ ∃ v, o = some v ∧ v ≤ 0)) := by
  rcases o with _ | v
  · by_cases h1 : 20 < a <;> by_cases h2 : b < 1e-6 <;> by_cases h3 : c ≤ 0 <;>
      by_cases h4 : t = kwS8R <;>
      simp [element_issues, h1, h2, h3, h4]
  · by_cases h1 : 20 < a <;> by_cases h2 : b < 1e-6 <;> by_cases h3 : c ≤ 0 <;>
      by_cases h4 : t = kwS8R <;> by_cases h5 : v ≤ 0 <;>
      simp [element_issues, h1, h2, h3, h4, h5]

/-- Norms are nonnegative. -/
lemma norm3_nonneg (v : Vec3) : 0 ≤ norm3 v := Real.sqrt_nonneg _

/-- Triangle areas are magnitudes, hence nonnegative. -/
lemma triangle_area_nonneg (p1 p2 p3 : Vec3) : 0 ≤ triangle_area p1 p2 p3 := by
  unfold triangle_area
  have h := norm3_nonneg (cross3 (sub3 p2 p1) (sub3 p3 p1))
  linarith

/-- A vector of unit squared norm has unit norm. -/
lemma norm3_eq_one (v : Vec3) (h : normSq v = 1) : norm3 v = 1 := by
  unfold norm3
  rw [h]
  simp

/-- Triangle area is one half when the edge cross product has unit
squared norm. -/
lemma triangle_area_half (p1 p2 p3 : Vec3)
    (h : normSq (cross3 (sub3 p2 p1) (sub3 p3 p1)) = 1) :
    triangle_area p1 p2 p3 = 1 / 2 := by
  unfold triangle_area
  rw [norm3_eq_one _ h]
  norm_num

open scoped Classical in
/-- Reduction of the butterfly check at an explicit 4-point list. -/
lemma is_butterfly_four (q0 q1 q2 q3 : Vec3) :
    is_butterfly [q0, q1, q2, q3] = true ↔
      (triangle_area q0 q1 q2 + triangle_area q2 q3 q0 < 0 ∨
       |triangle_area q0 q1 q2 + triangle_area q2 q3 q0 - 0| ≤ 1e-10 + 1e-5 * |(0 : ℝ)|) := by
  have h : is_butterfly [q0, q1, q2, q3]
      = decide (triangle_area q0 q1 q2 + triangle_area q2 q3 q0 < 0 ∨
          |triangle_area q0 q1 q2 + triangle_area q2 q3 q0 - 0| ≤ 1e-10 + 1e-5 * |(0 : ℝ)|) := rfl
  rw [h, decide_eq_true_eq]

/-- The butterfly check is false at a 4-point list whose two triangle
areas sum to one. -/
lemma is_butterfly_false_of_sum_one (q0 q1 q2 q3 : Vec3)
    (h : triangle_area q0 q1 q2 + triangle_area q2 q3 q0 = 1) :
    is_butterfly [q0, q1, q2, q3] = false := by
  rw [Bool.eq_false_iff, Ne, is_butterfly_four, h]
  intro hc
  rcases hc with hc | hc
  · norm_num at hc
  · rw [abs_zero] at hc
    norm_num at hc

/-- Any in-range indexed read with a default is a member of the list. -/
lemma getD_mem_of_lt {α : Type} : ∀ (l : List α) (i : Nat) (d : α),
    i < l.length → l.getD i d ∈ l
  | x :: xs, 0, _, _ => List.mem_cons_self x xs
  | x :: xs, i + 1, d, h =>
    List.mem_cons_of_mem x (getD_mem_of_lt xs i d (by simpa using h))

/-! ## Claim theorems -/

/-- C1 counterexample: on an input whose single included element is an
S8R shell with 8 resolved nodes (the unit-cube corners), the stored 3D
Jacobian is the defined value minus one half — not the NaN sentinel —
and rule 4 fires for that element under oracle metrics that trigger no
other rule, refuting that it can never fire. -/
theorem C1_s8r_rule4_fires :
    (filter_elements (parsedMesh s8rCubeLines).element_types
      (parsedMesh s8rCubeLines).elements).valid_element_types = [kwS8R] ∧
    jacobian_3d_list (parsedMesh s8rCubeLines).nodes
      (filter_elements (parsedMesh s8rCubeLines).element_types
        (parsedMesh s8rCubeLines).elements).valid_elements = [some (-(1 / 2))] ∧
    detect_problems
      (filter_elements (parsedMesh s8rCubeLines).element_types
        (parsedMesh s8rCubeLines).elements).valid_elements
      (filter_elements (parsedMesh s8rCubeLines).element_types
        (parsedMesh s8rCubeLines).elements).valid_element_types
      [1] [1] [1]
      (jacobian_3d_list (parsedMesh s8rCubeLines).nodes
        (filter_elements (parsedMesh s8rCubeLines).element_types
          (parsedMesh s8rCubeLines).elements).valid_elements)
      = [⟨1, kwS8R, [Issue.nonpositive3DJacobian (-(1 / 2))]⟩] :=
  ⟨by decide, by decide, by decide⟩

/-- C1 (amended): the 3D Jacobian is computed for every included element
with exactly 8 resolved node indices regardless of shape, so an included
S8R element with 8 resolved nodes stores a defined (non-NaN) value, and
rule 4 fires on such an element whenever that value is nonpositive; the
sentinel appears only when the resolved node count differs from 8. -/
theorem C1_amended_j3d_any_8 (points : List Vec3) (eid : Int) (ns : List Nat)
    (h8 : ns.length = 8) (ar av j q : ℚ)
    (hq : compute_3d_jacobian (ns.map (fun i => points.getD i (0, 0, 0))) = some q)
    (hle : q ≤ 0) :
    jacobian_3d_list points [(eid, ns)] = [some q] ∧
    Issue.nonpositive3DJacobian q ∈ element_issues ar av j kwS8R (some q) := by
  constructor
  · unfold jacobian_3d_list
    simp only [List.map_cons, List.map_nil]
    rw [if_pos h8, hq]
  · simp [element_issues, hle]

/-- C1 witness: the amended theorem applied to the unit-cube S8R data. -/
theorem C1_amended_witness :
    jacobian_3d_list unitCube [(1, [0, 1, 2, 3, 4, 5, 6, 7])] = [some (-(1 / 2))] ∧
    Issue.nonpositive3DJacobian (-(1 / 2)) ∈ element_issues 1 1 1 kwS8R (some (-(1 / 2))) :=
  C1_amended_j3d_any_8 unitCube 1 [0, 1, 2, 3, 4, 5, 6, 7] (by decide) 1 1 1 (-(1 / 2))
    (by decide) (by decide)

/-- C2: parsing never aborts at all — in particular not with a
FormatError — because a split on a contained separator always has a
second part, so the claimed abort branch is dead; at the failing input
(an element keyword line with an empty TYPE= value) the element type
silently becomes the empty string and the following element data line is
dropped, leaving one node and zero elements. -/
theorem C2_empty_type_no_error :
    (∀ lines : List String, parse_state lines = .ok (parsedMesh lines)) ∧
    (parsedMesh emptyTypeLines).current_element_type = some emptyStr ∧
    (parsedMesh emptyTypeLines).elements = [] ∧
    (parsedMesh emptyTypeLines).nodes.length = 1 :=
  ⟨parse_state_eq, by decide, by decide, by decide⟩

/-- C3: the butterfly check is false on the convex ordering of the
unit-square corners, as claimed, but it is also false on the
self-intersecting bowtie ordering of the same corners (the two diagonal
triangles still have total area one), contradicting the claim that it
returns true there. -/
theorem C3_butterfly_eval :
    is_butterfly [sq0, sq1, sq2, sq3] = false ∧
    is_butterfly [sq0, sq1, sq3, sq2] = false := by
  constructor
  · apply is_butterfly_false_of_sum_one
    have h1 : triangle_area sq0 sq1 sq2 = 1 / 2 := triangle_area_half _ _ _ (by decide)
    have h2 : triangle_area sq2 sq3 sq0 = 1 / 2 := triangle_area_half _ _ _ (by decide)
    rw [h1, h2]
    norm_num
  · apply is_butterfly_false_of_sum_one
    have h1 : triangle_area sq0 sq1 sq3 = 1 / 2 := triangle_area_half _ _ _ (by decide)
    have h2 : triangle_area sq3 sq2 sq0 = 1 / 2 := triangle_area_half _ _ _ (by decide)
    rw [h1, h2]
    norm_num

/-- C4 counterexample: in the run on a single C3D8 cube element, the
point list handed to the warping computation by the pipeline has 8
points, not 4 as claimed. -/
theorem C4_hex_warping_gets_8_points :
    ((filter_elements (parsedMesh c3d8CubeLines).element_types
        (parsedMesh c3d8CubeLines).elements).valid_element_types.zip
      (filter_elements (parsedMesh c3d8CubeLines).element_types
        (parsedMesh c3d8CubeLines).elements).valid_elements).map
      (fun p => (cell_points (parsedMesh c3d8CubeLines).nodes p.1 p.2.2).length)
      = [8] := by
  decide

/-- C4 (amended): with uppercase parsed types, every included S8R element
hands exactly its first 4 corner points to the warping computation,
while every other included element (C3D8, hence with 8 resolved nodes)
hands all 8 of its points; the recorded warping values are exactly the
warping function applied to those handed point lists. -/
theorem C4_amended_warp_inputs (etypes : List String) (elements : List (Int × List Nat))
    (points : List Vec3) (h : ∀ t ∈ etypes, pyUpper t = t) :
    (∀ p ∈ (filter_elements etypes elements).valid_element_types.zip
        (filter_elements etypes elements).valid_elements,
      (cell_points points p.1 p.2.2).length = if p.1 = kwS8R then 4 else 8) ∧
    warping_list points (filter_elements etypes elements).valid_elements
        (filter_elements etypes elements).valid_element_types
      = ((filter_elements etypes elements).valid_element_types.zip
          (filter_elements etypes elements).valid_elements).map
          (fun q => compute_warping (cell_points points q.1 q.2.2)) := by
  obtain ⟨hv, ht, _⟩ := filter_elements_spec etypes elements
  constructor
  · intro p hp
    obtain ⟨t, e⟩ := p
    rw [ht, hv, zip_proj_eq, List.mem_filter] at hp
    obtain ⟨hmem, hpred⟩ := hp
    have hup : pyUpper t = t := h t (List.of_mem_zip hmem).1
    rcases (spec_filter_pred_iff _ _).mp hpred with ⟨hc, hlen⟩ | ⟨hc, hlen⟩
    · have hne : t ≠ kwS8R := by rw [← hup, hc]; decide
      rw [if_neg hne]
      unfold cell_points
      rw [if_neg hne]
      simp only [List.length_map]
      exact hlen
    · have heq : t = kwS8R := by rw [← hup, hc]
      have hlen2 : 4 ≤ e.2.length := hlen
      rw [if_pos heq]
      unfold cell_points
      rw [if_pos heq]
      simp only [List.length_map, List.length_take]
      omega
  · rfl

/-- C4 witness: the amended theorem applied to a single included C3D8
cube element, whose warp input has all 8 points. -/
theorem C4_amended_witness :
    (cell_points unitCube kwC3D8 [0, 1, 2, 3, 4, 5, 6, 7]).length
      = if kwC3D8 = kwS8R then 4 else 8 :=
  (C4_amended_warp_inputs [kwC3D8] [(1, [0, 1, 2, 3, 4, 5, 6, 7])] unitCube (by decide)).1
    (kwC3D8, (1, [0, 1, 2, 3, 4, 5, 6, 7])) (by decide)

/-- C5: the detector emits one entry per record that violates at least
one of the four threshold rules and none otherwise: the loop is a
filterMap over the record indices in order (preserving record order,
with all matching messages accumulated in the fixed rule order by
`element_issues`), and the issue list is nonempty exactly when one of
aspect ratio above 20, area-or-volume below 1e-6, scaled Jacobian
nonpositive, or the S8R rule on a defined nonpositive 3D Jacobian holds. -/
theorem C5_detector_iff (valid : List (Int × List Nat)) (vtypes : List String)
    (ar av j : List ℚ) (j3d : List (Option ℚ)) :
    detect_problems valid vtypes ar av j j3d
      = (List.range valid.length).filterMap (fun i =>
          if issuesAt vtypes ar av j j3d i = [] then none
          else some (entryAt valid vtypes ar av j j3d i)) ∧
    ∀ a b c : ℚ, ∀ t : String, ∀ o : Option ℚ,
      element_issues a b c t o ≠ [] ↔
        (20 < a ∨ b < 1e-6 ∨ c ≤ 0 ∨ (t = kwS8R ∧ ∃ v, o = some v ∧ v ≤ 0)) := by
  refine ⟨detect_problems_eq _ _ _ _ _ _, ?_⟩
  intro a b c t o
  rw [Ne, element_issues_eq_nil_iff, not_not]

/-- C6: the run aborts with a DataError exactly when parsing yields zero
nodes or zero elements, or when zero elements survive the shape filter;
for every input with at least one parsed node, one parsed element and one
surviving element, no DataError is raised. -/
theorem C6_dataerror_iff (lines : List String) :
    (∃ msg, run_checks lines = .error (.dataError msg)) ↔
      ((parsedMesh lines).nodes = [] ∨ (parsedMesh lines).elements = [] ∨
       (filter_elements (parsedMesh lines).element_types
         (parsedMesh lines).elements).valid_elements = []) := by
  have hp : parse_mesh lines =
      (if (parsedMesh lines).nodes = [] ∨ (parsedMesh lines).elements = []
       then .error (.dataError dataErrMsg1) else .ok (parsedMesh lines)) := by
    unfold parse_mesh
    rw [parse_state_eq]
  have hrun : run_checks lines =
      (if (parsedMesh lines).nodes = [] ∨ (parsedMesh lines).elements = [] then
        .error (.dataError dataErrMsg1)
      else if (filter_elements (parsedMesh lines).element_types
          (parsedMesh lines).elements).cells = [] then
        .error (.dataError dataErrMsg2)
      else .ok (parsedMesh lines, filter_elements (parsedMesh lines).element_types
        (parsedMesh lines).elements)) := by
    unfold run_checks
    rw [hp]
    by_cases h1 : (parsedMesh lines).nodes = [] ∨ (parsedMesh lines).elements = []
    · rw [if_pos h1, if_pos h1]
    · rw [if_neg h1, if_neg h1]
  rw [hrun]
  by_cases h1 : (parsedMesh lines).nodes = [] ∨ (parsedMesh lines).elements = []
  · rw [if_pos h1]
    constructor
    · intro _
      rcases h1 with h | h
      exacts [Or.inl h, Or.inr (Or.inl h)]
    · intro _
      exact ⟨dataErrMsg1, rfl⟩
  · rw [if_neg h1]
    push_neg at h1
    by_cases h2 : (filter_elements (parsedMesh lines).element_types
        (parsedMesh lines).elements).cells = []
    · rw [if_pos h2]
      constructor
      · intro _
        exact Or.inr (Or.inr ((filter_elements_cells_iff _ _).mp h2))
      · intro _
        exact ⟨dataErrMsg2, rfl⟩
    · rw [if_neg h2]
      constructor
      · rintro ⟨msg, hmsg⟩
        simp at hmsg
      · rintro (h | h | h)
        · exact absurd h h1.1
        · exact absurd h h1.2
        · exact absurd ((filter_elements_cells_iff _ _).mpr h) h2

/-- C7: the kept elements and their types are exactly the parsed elements
passing the shape filter (C3D8 with exactly 8 resolved nodes or S8R with
at least 4), the CSV data row count and the visual cell count both equal
the kept element count, and every problem entry id belongs to a kept
element — so filtered-out elements appear in no output. -/
theorem C7_filter_counts (etypes : List String) (elements : List (Int × List Nat))
    (points : List Vec3) (ar skew j av : List ℚ) :
    (filter_elements etypes elements).valid_elements
      = ((etypes.zip elements).filter fun p => spec_filter_pred p.1 p.2.2).map Prod.snd ∧
    (filter_elements etypes elements).valid_element_types
      = ((etypes.zip elements).filter fun p => spec_filter_pred p.1 p.2.2).map Prod.fst ∧
    (csv_rows points (filter_elements etypes elements) ar skew j av).length
      = (filter_elements etypes elements).valid_elements.length ∧
    (filter_elements etypes elements).vtk_cell_types.length
      = (filter_elements etypes elements).valid_elements.length ∧
    ∀ e ∈ detect_problems (filter_elements etypes elements).valid_elements
        (filter_elements etypes elements).valid_element_types ar av j
        (jacobian_3d_list points (filter_elements etypes elements).valid_elements),
      e.elem_id ∈ (filter_elements etypes elements).valid_elements.map Prod.fst := by
  obtain ⟨hv, ht, hk⟩ := filter_elements_spec etypes elements
  refine ⟨hv, ht, ?_, ?_, ?_⟩
  · simp [csv_rows]
  · rw [hk, hv, List.length_map]
  · intro e he
    rw [detect_problems_eq, List.mem_filterMap] at he
    obtain ⟨i, hi, hfe⟩ := he
    rw [List.mem_range] at hi
    split at hfe
    · simp at hfe
    · have heq := Option.some.inj hfe
      rw [← heq]
      exact List.mem_map_of_mem Prod.fst (getD_mem_of_lt _ _ _ hi)

/-- C8: for every 4-point input to the butterfly check, the sum of the
two magnitude-based triangle areas is nonnegative — so the negative-sum
trigger is unreachable — and the check returns true exactly when that sum
is within the absolute tolerance 1e-10 of zero. -/
theorem C8_butterfly_tolerance (q0 q1 q2 q3 : Vec3) :
    0 ≤ triangle_area q0 q1 q2 + triangle_area q2 q3 q0 ∧
    (is_butterfly [q0, q1, q2, q3] = true ↔
      triangle_area q0 q1 q2 + triangle_area q2 q3 q0 ≤ 1e-10) := by
  have hn : 0 ≤ triangle_area q0 q1 q2 + triangle_area q2 q3 q0 :=
    add_nonneg (triangle_area_nonneg _ _ _) (triangle_area_nonneg _ _ _)
  refine ⟨hn, ?_⟩
  rw [is_butterfly_four]
  rw [sub_zero, abs_of_nonneg hn, abs_zero]
  constructor
  · rintro (hc | hc)
    · linarith
    · linarith
  · intro hc
    right
    linarith

/-- C9: evaluation at the failing input: on the unit cube in standard
corner ordering the hexahedron Jacobian is minus one half — a
nonpositive value, not the positive value claimed — because the two
top-face tetrahedra have negative orientation relative to the centroid;
a 16-point input yields the NaN sentinel as claimed. -/
theorem C9_cube_jacobian :
    compute_3d_jacobian unitCube = some (-(1 / 2)) ∧
    ¬(0 < (-(1 / 2) : ℚ)) ∧
    compute_3d_jacobian (unitCube ++ unitCube) = none :=
  ⟨by decide, by decide, by decide⟩

/-- C10: for every input point set with fewer than 4 points, the warping
function returns exactly zero: it does not fail, and it does not return
the positive-infinity sentinel (`none`). -/
theorem C10_warping_short_input (pts : List Vec3) (h : pts.length < 4) :
    compute_warping pts = some 0 := by
  unfold compute_warping
  rw [if_pos h]

/-- C10 witness: the empty point set. -/
theorem C10_warping_short_input_witness :
    ([] : List Vec3).length < 4 ∧ compute_warping [] = some 0 :=
  ⟨by decide, C10_warping_short_input [] (by decide)⟩
